import Mathlib

/-!
# mini_audio_decoder : packetisation pipeline of `main.c`

A shallow embedding of `src/main.c`.  The file-scope variables of the C file
become the fields of `AudioState`; every C function becomes a function that
threads the state.  The miniaudio decoder and the C allocator are external
collaborators: what they answer is collected in `World`, and every call made to
them (together with every `printf`) is appended to the `trace` of the state, so
that properties such as "released exactly once" can be read off the trace.

Machine integers are natural numbers reduced modulo `2^32` (`ma_uint32`) or
`2^64` (`ma_uint64`) wherever the C arithmetic can wrap.
-/

namespace MiniAudio

/-- Modulus of `ma_uint32` arithmetic. -/
def U32 : Nat := 2 ^ 32

/-- Modulus of `ma_uint64` arithmetic. -/
def U64 : Nat := 2 ^ 64

/-- Value of miniaudio's `MA_SUCCESS`. -/
def MA_SUCCESS : Int := 0

/-- The null pointer. -/
def NULL : Nat := 0

/-- The messages printed by `main.c` (one constructor per `printf` call site). -/
inductive Msg where
  | begin_audio_program
  | error_in_audio_main
  | end_audio_program
  | could_not_load_file
  | failed_to_get_total_frames
  | memory_allocation_failed
  | total_frames (n : Nat)
  | total_packets (n : Nat)
  | failed_to_read_audio_data
  | populate_completed
  deriving DecidableEq

/-- The observable calls of a run: calls into miniaudio, into the allocator, and `printf`. -/
inductive Event where
  | ma_decoder_init_file
  | ma_get_bytes_per_frame
  | ma_decoder_get_length_in_pcm_frames
  | malloc (size : Nat)
  | ma_decoder_read_pcm_frames (buffer : Nat) (frameCount : Nat)
  | free (ptr : Nat)
  | ma_decoder_uninit
  | printf (m : Msg)
  deriving DecidableEq

/-- Behaviour of the external collaborators during one run.
`init_file_result` is the `ma_result` of `ma_decoder_init_file`, `bytes_per_frame` the value of
`ma_get_bytes_per_frame`, `length_result` and `length_frames` the `ma_result` of
`ma_decoder_get_length_in_pcm_frames` and the value it leaves in `total_frames`,
`malloc_ptr` the pointer returned by `malloc` (`NULL` when it fails).
`read_pcm_frames n` is the answer to the `n`-th call (counted from 0) of
`ma_decoder_read_pcm_frames`: its `ma_result` and the number of frames it actually
delivered into the buffer.  The program passes `NULL` for `pFramesRead`, so the second
component is never seen by the code. -/
structure World where
  init_file_result : Int
  bytes_per_frame : Nat
  length_result : Int
  length_frames : Nat
  malloc_ptr : Nat
  read_pcm_frames : Nat → Int × Nat

/-- The file-scope variables of `main.c`, the number of reads the decoder has served
(its sequential cursor, counted in calls) and the trace of calls made so far. -/
structure AudioState where
  result : Int
  packetSizeInFrames : Nat
  packetSizeInBytes : Nat
  total_frames : Nat
  total_packets : Nat
  framesRemaining : Nat
  framesToRead : Nat
  audio_data_buffer : Nat
  reads_served : Nat
  trace : List Event
  deriving DecidableEq

/-- Static initialisation of `main.c`: everything zero except `packetSizeInFrames = 1024`. -/
def initial_state : AudioState :=
  { result := 0, packetSizeInFrames := 1024, packetSizeInBytes := 0, total_frames := 0,
    total_packets := 0, framesRemaining := 0, framesToRead := 0, audio_data_buffer := NULL,
    reads_served := 0, trace := [] }

/-- Append one event to the trace. -/
def emit (e : Event) (s : AudioState) : AudioState :=
  { s with trace := s.trace ++ [e] }

/-- `audio_init_file` (main.c 144-153). -/
def audio_init_file (w : World) (s : AudioState) : Int × AudioState :=
  let s := emit Event.ma_decoder_init_file { s with result := w.init_file_result }
  if s.result ≠ MA_SUCCESS then
    (-1, emit (Event.printf Msg.could_not_load_file) s)
  else
    (0, s)

/-- `audio_calculate_packet_size_bytes` (main.c 161-164): a 32-bit product. -/
def audio_calculate_packet_size_bytes (w : World) (s : AudioState) : AudioState :=
  let s := emit Event.ma_get_bytes_per_frame s
  { s with packetSizeInBytes := (s.packetSizeInFrames * (w.bytes_per_frame % U32)) % U32 }

/-- `audio_calculate_total_frames` (main.c 175-185). -/
def audio_calculate_total_frames (w : World) (s : AudioState) : Int × AudioState :=
  let s := emit Event.ma_decoder_get_length_in_pcm_frames
    { s with result := w.length_result, total_frames := w.length_frames % U64 }
  if s.result ≠ MA_SUCCESS then
    let s := emit (Event.printf Msg.failed_to_get_total_frames) s
    let s := emit Event.ma_decoder_uninit s
    (-1, s)
  else
    (0, s)

/-- `audio_calculate_total_packets` (main.c 193-196): the sum and the decrement are
64-bit unsigned and wrap.  The C division is undefined for `packetSizeInFrames = 0`, where the
quotient below is 0: statements that go through this function carry `0 < packetSizeInFrames`
or run from `initial_state`, where it is 1024. -/
def audio_calculate_total_packets (s : AudioState) : AudioState :=
  { s with total_packets :=
      (((s.total_frames + s.packetSizeInFrames) % U64 + (U64 - 1)) % U64) / s.packetSizeInFrames }

/-- `audio_init_buffer` (main.c 206-216). -/
def audio_init_buffer (w : World) (s : AudioState) : Int × AudioState :=
  let s := emit (Event.malloc s.packetSizeInBytes) { s with audio_data_buffer := w.malloc_ptr }
  if s.audio_data_buffer = NULL then
    let s := emit (Event.printf Msg.memory_allocation_failed) s
    let s := emit Event.ma_decoder_uninit s
    (-3, s)
  else
    (0, s)

/-- The first two statements of the loop body of `audio_populate_buffer`
(main.c 230-231): the product and the difference are 64-bit unsigned and wrap. -/
def populate_frames (packetIndex : Nat) (s : AudioState) : AudioState :=
  let s := { s with framesRemaining :=
    (s.total_frames + (U64 - (packetIndex * s.packetSizeInFrames) % U64)) % U64 }
  { s with framesToRead :=
    if s.framesRemaining < s.packetSizeInFrames then s.framesRemaining else s.packetSizeInFrames }

/-- The call `ma_decoder_read_pcm_frames(&decoder, audio_data_buffer, framesToRead, NULL)`
(main.c 233): the status is stored in `result`; the delivered frame count is dropped. -/
def populate_read (w : World) (s : AudioState) : AudioState :=
  emit (Event.ma_decoder_read_pcm_frames s.audio_data_buffer s.framesToRead)
    { s with result := (w.read_pcm_frames s.reads_served).1, reads_served := s.reads_served + 1 }

/-- The failure branch of the loop body (main.c 235-238). -/
def populate_fail (s : AudioState) : AudioState :=
  let s := emit (Event.printf Msg.failed_to_read_audio_data) s
  let s := emit (Event.free s.audio_data_buffer) s
  emit Event.ma_decoder_uninit s

/-- The `for` loop of `audio_populate_buffer` (main.c 229-246), entered at `packetIndex`.
`packetIndex < total_packets < 2^64` on every iteration, so `++packetIndex` cannot wrap. -/
def populate_loop (w : World) (packetIndex : Nat) (s : AudioState) : Int × AudioState :=
  if packetIndex < s.total_packets then
    let s1 := populate_read w (populate_frames packetIndex s)
    if s1.result ≠ MA_SUCCESS then
      (-4, populate_fail s1)
    else
      populate_loop w (packetIndex + 1) s1
  else
    (0, emit (Event.printf Msg.populate_completed) s)
termination_by s.total_packets - packetIndex
decreasing_by
  simp_wf
  simp only [populate_read, populate_frames, emit]
  omega

/-- `audio_populate_buffer` (main.c 227-247). -/
def audio_populate_buffer (w : World) (s : AudioState) : Int × AudioState :=
  populate_loop w 0 s

/-- `audio_cleanup` (main.c 255-259). -/
def audio_cleanup (s : AudioState) : AudioState :=
  let s := emit (Event.free s.audio_data_buffer) s
  emit Event.ma_decoder_uninit s

/-- `audio_main` (main.c 104-134).  Only the return value of `audio_init_file` is
inspected; the return values of the later stages are discarded. -/
def audio_main (w : World) (s : AudioState) : Int × AudioState :=
  let r0 := audio_init_file w s
  if r0.1 ≠ 0 then
    (-1, r0.2)
  else
    let s := audio_calculate_packet_size_bytes w r0.2
    let s := (audio_calculate_total_frames w s).2
    let s := audio_calculate_total_packets s
    let s := (audio_init_buffer w s).2
    let s := emit (Event.printf (Msg.total_frames s.total_frames)) s
    let s := emit (Event.printf (Msg.total_packets s.total_packets)) s
    let s := (audio_populate_buffer w s).2
    let s := audio_cleanup s
    (0, s)

/-- `main` (main.c 81-93). -/
def main (w : World) (s : AudioState) : Int × AudioState :=
  let s := emit (Event.printf Msg.begin_audio_program) s
  let r := audio_main w s
  if r.1 ≠ 0 then
    (-1, emit (Event.printf Msg.error_in_audio_main) r.2)
  else
    (0, emit (Event.printf Msg.end_audio_program) r.2)

/-! ## Observations on traces -/

/-- The read calls issued for the packet indices `idx, idx+1, ..., idx+n-1`, in that order:
each asks for the `framesToRead` that the loop body computes at that index. -/
def read_events (s : AudioState) (idx n : Nat) : List Event :=
  (List.range' idx n).map fun i =>
    Event.ma_decoder_read_pcm_frames s.audio_data_buffer (populate_frames i s).framesToRead

/-- The frame counts requested by the read calls of a trace, in order. -/
def requested_frames : List Event → List Nat
  | [] => []
  | Event.ma_decoder_read_pcm_frames _ n :: t => n :: requested_frames t
  | _ :: t => requested_frames t

/-- Number of `free` calls in a trace. -/
def count_free (t : List Event) : Nat :=
  t.countP fun e => match e with
    | Event.free _ => true
    | _ => false

/-- Number of `ma_decoder_uninit` calls in a trace. -/
def count_uninit (t : List Event) : Nat :=
  t.countP fun e => match e with
    | Event.ma_decoder_uninit => true
    | _ => false

/-- Number of `ma_decoder_read_pcm_frames` calls in a trace. -/
def count_read (t : List Event) : Nat :=
  t.countP fun e => match e with
    | Event.ma_decoder_read_pcm_frames _ _ => true
    | _ => false

/-! ## Concrete states and worlds used as test points -/

/-- The statics after a length query that reported `2^64 - 1` frames. -/
def max_frames_state : AudioState := { initial_state with total_frames := 2 ^ 64 - 1 }

/-- The statics of a 2500-frame source once the geometry is known (3 packets of 1024). -/
def frames_2500_state : AudioState :=
  { initial_state with total_frames := 2500, total_packets := 3 }

/-- A source whose header announces `2^64 - 1` frames; every call succeeds. -/
def huge_file_world : World :=
  { init_file_result := 0, bytes_per_frame := 1, length_result := 0,
    length_frames := 2 ^ 64 - 1, malloc_ptr := 4096,
    read_pcm_frames := fun _ => (0, 1024) }

/-- A source that opens but cannot report its length (`MA_ERROR = -1`). -/
def length_fail_world : World :=
  { init_file_result := 0, bytes_per_frame := 4, length_result := -1,
    length_frames := 0, malloc_ptr := 4096,
    read_pcm_frames := fun _ => (0, 1024) }

/-- A 2500-frame source whose second read (packet index 1 of 3) fails. -/
def read_fail_world : World :=
  { init_file_result := 0, bytes_per_frame := 4, length_result := 0,
    length_frames := 2500, malloc_ptr := 4096,
    read_pcm_frames := fun n => if n = 1 then (-1, 0) else (0, 1024) }

/-- A 2500-frame source whose first read delivers only 100 of the 1024 frames asked for,
with status `MA_SUCCESS`. -/
def short_read_world : World :=
  { init_file_result := 0, bytes_per_frame := 4, length_result := 0,
    length_frames := 2500, malloc_ptr := 4096,
    read_pcm_frames := fun n => if n = 0 then (0, 100) else (0, 1024) }

/-- A source that cannot be opened (`MA_DOES_NOT_EXIST = -7`). -/
def open_fail_world : World :=
  { init_file_result := -7, bytes_per_frame := 0, length_result := 0,
    length_frames := 0, malloc_ptr := 4096,
    read_pcm_frames := fun _ => (0, 0) }

/-- A source with no frames at all; every call succeeds. -/
def empty_file_world : World :=
  { init_file_result := 0, bytes_per_frame := 4, length_result := 0,
    length_frames := 0, malloc_ptr := 4096,
    read_pcm_frames := fun _ => (0, 0) }

/-! ## The state at the entry of the packet loop -/

/-- The state in which `audio_main` calls `audio_populate_buffer`: the stages of
main.c 107-125 applied in order, their return values dropped as in the source. -/
def populate_entry_state (w : World) (s : AudioState) : AudioState :=
  let s := (audio_init_file w s).2
  let s := audio_calculate_packet_size_bytes w s
  let s := (audio_calculate_total_frames w s).2
  let s := audio_calculate_total_packets s
  let s := (audio_init_buffer w s).2
  let s := emit (Event.printf (Msg.total_frames s.total_frames)) s
  emit (Event.printf (Msg.total_packets s.total_packets)) s

/-- Calls that operate on the decoder object after it has been opened. -/
def uses_decoder : Event → Bool
  | Event.ma_decoder_get_length_in_pcm_frames => true
  | Event.ma_decoder_read_pcm_frames _ _ => true
  | Event.ma_decoder_uninit => true
  | _ => false

/-- Whether some `ma_decoder_uninit` of the trace is followed by a later decoder call. -/
def decoder_used_after_uninit : List Event → Bool
  | [] => false
  | e :: t => (e == Event.ma_decoder_uninit && t.any uses_decoder) || decoder_used_after_uninit t

/-- Whether some read of the trace is issued into the null pointer. -/
def read_into_null (t : List Event) : Bool :=
  t.any fun e => match e with
    | Event.ma_decoder_read_pcm_frames b _ => b == NULL
    | _ => false

/-- Whether some `free` of the trace is applied to the null pointer. -/
def free_of_null (t : List Event) : Bool :=
  t.any fun e => match e with
    | Event.free p => p == NULL
    | _ => false

/-- A 2500-frame source for which every call succeeds. -/
def frames_2500_world : World :=
  { init_file_result := 0, bytes_per_frame := 4, length_result := 0,
    length_frames := 2500, malloc_ptr := 4096,
    read_pcm_frames := fun _ => (0, 1024) }

/-- A 2500-frame source for which `malloc` returns `NULL`; the reads then issued on the
uninitialised decoder are answered with `MA_INVALID_ARGS = -2`. -/
def alloc_fail_world : World :=
  { init_file_result := 0, bytes_per_frame := 4, length_result := 0,
    length_frames := 2500, malloc_ptr := NULL,
    read_pcm_frames := fun _ => (-2, 0) }

/-- A 2500-frame source whose format reports 0 bytes per frame; `malloc(0)` returns a
non-null pointer and every read succeeds. -/
def zero_bytes_world : World :=
  { init_file_result := 0, bytes_per_frame := 0, length_result := 0,
    length_frames := 2500, malloc_ptr := 4096,
    read_pcm_frames := fun _ => (0, 1024) }

/-- Two states carry the same packet geometry. -/
def same_geometry (a b : AudioState) : Prop :=
  a.packetSizeInFrames = b.packetSizeInFrames ∧ a.packetSizeInBytes = b.packetSizeInBytes ∧
  a.total_frames = b.total_frames ∧ a.total_packets = b.total_packets

instance (a b : AudioState) : Decidable (same_geometry a b) := by
  unfold same_geometry
  infer_instance

/-- The source frame ranges `(first, one past last)` covered by a sequence of requests served
by a sequential cursor starting at `cursor`. -/
def packet_ranges_from (cursor : Nat) : List Nat → List (Nat × Nat)
  | [] => []
  | f :: t => (cursor, cursor + f) :: packet_ranges_from (cursor + f) t

/-- The loop entry state of the run on `frames_2500_world` from the static initial state. -/
def frames_2500_entry_state : AudioState := populate_entry_state frames_2500_world initial_state

/-- A 2500-frame source whose second read (packet index 1 of 3) fails with `MA_ERROR = -1`
although it delivered all 1024 frames asked for. -/
def full_failed_read_world : World :=
  { init_file_result := 0, bytes_per_frame := 4, length_result := 0,
    length_frames := 2500, malloc_ptr := 4096,
    read_pcm_frames := fun n => if n = 1 then (-1, 1024) else (0, 1024) }

/-- An empty source for which `malloc` returns `NULL`. -/
def alloc_fail_empty_world : World :=
  { init_file_result := 0, bytes_per_frame := 4, length_result := 0,
    length_frames := 0, malloc_ptr := NULL,
    read_pcm_frames := fun _ => (-2, 0) }

/-! # Theorems -/

/-! ## The packet count -/

/-- When `total_frames + packetSizeInFrames - 1` fits in 64 bits, the packet count is the
rounded-up quotient. -/
theorem total_packets_no_wrap (s : AudioState) (hp : 0 < s.packetSizeInFrames)
    (h : s.total_frames + s.packetSizeInFrames ≤ U64) :
    (audio_calculate_total_packets s).total_packets =
      (s.total_frames + s.packetSizeInFrames - 1) / s.packetSizeInFrames := by
  have e : ((s.total_frames + s.packetSizeInFrames) % U64 + (U64 - 1)) % U64
      = s.total_frames + s.packetSizeInFrames - 1 := by
    simp only [U64] at *
    omega
  simp only [audio_calculate_total_packets, e]

/-- When `total_frames + packetSizeInFrames - 1` does not fit in 64 bits, the wrapped
numerator is smaller than the divisor and the packet count is 0. -/
theorem total_packets_wrap (s : AudioState) (htf : s.total_frames < U64)
    (h : U64 < s.total_frames + s.packetSizeInFrames) :
    (audio_calculate_total_packets s).total_packets = 0 := by
  have e : ((s.total_frames + s.packetSizeInFrames) % U64 + (U64 - 1)) % U64
      < s.packetSizeInFrames := by
    simp only [U64] at *
    omega
  simp only [audio_calculate_total_packets]
  exact Nat.div_eq_of_lt e

/-- The rounded-up quotient on naturals is the ceiling of the rational quotient. -/
theorem ceil_div_eq (a p : Nat) (hp : 0 < p) :
    ⌈((a : ℚ) / (p : ℚ))⌉₊ = (a + p - 1) / p := by
  have hpq : (0 : ℚ) < (p : ℚ) := by exact_mod_cast hp
  have h1 := Nat.div_add_mod (a + p - 1) p
  have h2 := Nat.mod_lt (a + p - 1) hp
  rw [Nat.mul_comm] at h1
  apply le_antisymm
  · rw [Nat.ceil_le, div_le_iff₀ hpq]
    have : a ≤ (a + p - 1) / p * p := by omega
    exact_mod_cast this
  · by_contra hlt
    rw [not_le, Nat.lt_iff_add_one_le] at hlt
    have hc : ((a : ℚ) / (p : ℚ)) ≤ ((⌈((a : ℚ) / (p : ℚ))⌉₊ : ℕ) : ℚ) := Nat.le_ceil _
    rw [div_le_iff₀ hpq] at hc
    have hc2 : a ≤ ⌈((a : ℚ) / (p : ℚ))⌉₊ * p := by exact_mod_cast hc
    have hm : (⌈((a : ℚ) / (p : ℚ))⌉₊ + 1) * p ≤ (a + p - 1) / p * p :=
      Nat.mul_le_mul_right _ hlt
    rw [Nat.add_mul, Nat.one_mul] at hm
    omega

/-- Without wrap-around the packet count is the mathematical ceiling. -/
theorem total_packets_eq_ceil (s : AudioState) (hp : 0 < s.packetSizeInFrames)
    (h : s.total_frames + s.packetSizeInFrames ≤ U64) :
    (audio_calculate_total_packets s).total_packets =
      ⌈((s.total_frames : ℚ) / (s.packetSizeInFrames : ℚ))⌉₊ := by
  rw [total_packets_no_wrap s hp h, ceil_div_eq _ _ hp]

/-- Without wrap-around the packet count satisfies the geometry invariant. -/
theorem geometry_no_wrap (s : AudioState) (hp : 0 < s.packetSizeInFrames)
    (h : s.total_frames + s.packetSizeInFrames ≤ U64) :
    s.total_frames ≤ (audio_calculate_total_packets s).total_packets * s.packetSizeInFrames ∧
    (((audio_calculate_total_packets s).total_packets : Int) - 1) * (s.packetSizeInFrames : Int)
      < (s.total_frames : Int) := by
  rw [total_packets_no_wrap s hp h]
  have h1 := Nat.div_add_mod (s.total_frames + s.packetSizeInFrames - 1) s.packetSizeInFrames
  have h2 := Nat.mod_lt (s.total_frames + s.packetSizeInFrames - 1) hp
  rw [Nat.mul_comm] at h1
  refine ⟨by omega, ?_⟩
  have h3 : (((s.total_frames + s.packetSizeInFrames - 1) / s.packetSizeInFrames : Nat) : Int)
      * (s.packetSizeInFrames : Int)
      = (((s.total_frames + s.packetSizeInFrames - 1) / s.packetSizeInFrames
          * s.packetSizeInFrames : Nat) : Int) := by
    push_cast
    rfl
  rw [sub_mul, one_mul, h3]
  omega

/-! ## The loop of `audio_populate_buffer` -/

/-- The read calls depend on the state only through the geometry and the buffer pointer. -/
theorem read_events_congr (s s' : AudioState) (idx n : Nat)
    (h1 : s'.total_frames = s.total_frames) (h2 : s'.packetSizeInFrames = s.packetSizeInFrames)
    (h3 : s'.audio_data_buffer = s.audio_data_buffer) :
    read_events s' idx n = read_events s idx n := by
  simp only [read_events, populate_frames, h1, h2, h3]

/-- Unfolding of `read_events` at its first index. -/
theorem read_events_succ (s : AudioState) (idx n : Nat) :
    read_events s idx (n + 1) =
      Event.ma_decoder_read_pcm_frames s.audio_data_buffer (populate_frames idx s).framesToRead
        :: read_events s (idx + 1) n := by
  simp only [read_events, List.range'_succ, List.map_cons]

/-- The loop exits when `packetIndex` reaches `total_packets`. -/
theorem populate_loop_done (w : World) (idx : Nat) (s : AudioState)
    (h : ¬ idx < s.total_packets) :
    populate_loop w idx s = (0, emit (Event.printf Msg.populate_completed) s) := by
  rw [populate_loop, if_neg h]

/-- A successful read moves the loop to the next index. -/
theorem populate_loop_next (w : World) (idx : Nat) (s : AudioState)
    (h : idx < s.total_packets)
    (hres : (populate_read w (populate_frames idx s)).result = MA_SUCCESS) :
    populate_loop w idx s = populate_loop w (idx + 1) (populate_read w (populate_frames idx s)) := by
  rw [populate_loop, if_pos h]
  simp [hres]

/-- A failed read leaves the loop through the failure branch with code `-4`. -/
theorem populate_loop_abort (w : World) (idx : Nat) (s : AudioState)
    (h : idx < s.total_packets)
    (hres : (populate_read w (populate_frames idx s)).result ≠ MA_SUCCESS) :
    populate_loop w idx s = (-4, populate_fail (populate_read w (populate_frames idx s))) := by
  rw [populate_loop, if_pos h]
  simp [hres]

/-- When the `n` remaining reads all succeed, the loop returns 0 after issuing exactly
the reads for the remaining indices. -/
theorem populate_loop_ok (w : World) :
    ∀ (n idx : Nat) (s : AudioState), s.total_packets - idx = n →
      (∀ j, j < n → (w.read_pcm_frames (s.reads_served + j)).1 = MA_SUCCESS) →
      (populate_loop w idx s).1 = 0 ∧
      (populate_loop w idx s).2.trace =
        s.trace ++ read_events s idx n ++ [Event.printf Msg.populate_completed] ∧
      (populate_loop w idx s).2.reads_served = s.reads_served + n := by
  intro n
  induction n with
  | zero =>
    intro idx s hn _
    have hlt : ¬ idx < s.total_packets := by omega
    rw [populate_loop_done w idx s hlt]
    simp [emit, read_events]
  | succ n ih =>
    intro idx s hn hok
    have hlt : idx < s.total_packets := by omega
    have h0 : (w.read_pcm_frames s.reads_served).1 = MA_SUCCESS := by
      simpa using hok 0 (Nat.succ_pos n)
    have hres : (populate_read w (populate_frames idx s)).result = MA_SUCCESS := by
      simp [populate_read, populate_frames, emit, h0]
    rw [populate_loop_next w idx s hlt hres]
    have hrec := ih (idx + 1) (populate_read w (populate_frames idx s))
      (by simp only [populate_read, populate_frames, emit]; omega)
      (by
        intro j hj
        have := hok (j + 1) (Nat.succ_lt_succ hj)
        simpa [populate_read, populate_frames, emit, Nat.add_assoc, Nat.add_comm 1 j] using this)
    refine ⟨hrec.1, ?_, ?_⟩
    · rw [hrec.2.1, read_events_succ,
        read_events_congr s (populate_read w (populate_frames idx s)) (idx + 1) n rfl rfl rfl]
      simp [populate_read, populate_frames, emit]
    · rw [hrec.2.2]
      simp only [populate_read, populate_frames, emit]
      omega

/-- When the read `n` iterations ahead is the first to fail, the loop returns `-4` after
issuing exactly the reads up to and including that one, then frees and uninitialises. -/
theorem populate_loop_fail (w : World) :
    ∀ (n idx : Nat) (s : AudioState), idx + n < s.total_packets →
      (∀ j, j < n → (w.read_pcm_frames (s.reads_served + j)).1 = MA_SUCCESS) →
      (w.read_pcm_frames (s.reads_served + n)).1 ≠ MA_SUCCESS →
      (populate_loop w idx s).1 = -4 ∧
      (populate_loop w idx s).2.trace =
        s.trace ++ read_events s idx (n + 1) ++
          [Event.printf Msg.failed_to_read_audio_data, Event.free s.audio_data_buffer,
           Event.ma_decoder_uninit] ∧
      (populate_loop w idx s).2.reads_served = s.reads_served + n + 1 := by
  intro n
  induction n with
  | zero =>
    intro idx s hn _ hbad
    have hlt : idx < s.total_packets := by omega
    have hres : (populate_read w (populate_frames idx s)).result ≠ MA_SUCCESS := by
      simpa [populate_read, populate_frames, emit] using hbad
    rw [populate_loop_abort w idx s hlt hres]
    simp [populate_fail, populate_read, populate_frames, emit, read_events]
  | succ n ih =>
    intro idx s hn hok hbad
    have hlt : idx < s.total_packets := by omega
    have h0 : (w.read_pcm_frames s.reads_served).1 = MA_SUCCESS := by
      simpa using hok 0 (Nat.succ_pos n)
    have hres : (populate_read w (populate_frames idx s)).result = MA_SUCCESS := by
      simp [populate_read, populate_frames, emit, h0]
    rw [populate_loop_next w idx s hlt hres]
    have hrec := ih (idx + 1) (populate_read w (populate_frames idx s))
      (by simp only [populate_read, populate_frames, emit]; omega)
      (by
        intro j hj
        have := hok (j + 1) (Nat.succ_lt_succ hj)
        simpa [populate_read, populate_frames, emit, Nat.add_assoc, Nat.add_comm 1 j] using this)
      (by
        simpa [populate_read, populate_frames, emit, Nat.add_assoc, Nat.add_comm 1 n] using hbad)
    refine ⟨hrec.1, ?_, ?_⟩
    · rw [hrec.2.1, read_events_succ s idx (n + 1),
        read_events_congr s (populate_read w (populate_frames idx s)) (idx + 1) (n + 1) rfl rfl rfl]
      simp [populate_read, populate_frames, emit]
    · rw [hrec.2.2]
      simp only [populate_read, populate_frames, emit]
      omega

/-- The read step looks at the status only. -/
theorem populate_read_status_only (w w' : World)
    (hs : ∀ n, (w'.read_pcm_frames n).1 = (w.read_pcm_frames n).1) (s : AudioState) :
    populate_read w' s = populate_read w s := by
  simp only [populate_read, hs]

/-- Two worlds whose reads carry the same statuses drive the loop identically, whatever
frame counts they deliver. -/
theorem populate_loop_status_only (w w' : World)
    (hs : ∀ n, (w'.read_pcm_frames n).1 = (w.read_pcm_frames n).1) :
    ∀ (n idx : Nat) (s : AudioState), s.total_packets - idx = n →
      populate_loop w' idx s = populate_loop w idx s := by
  intro n
  induction n with
  | zero =>
    intro idx s hn
    have hlt : ¬ idx < s.total_packets := by omega
    rw [populate_loop_done w idx s hlt, populate_loop_done w' idx s hlt]
  | succ n ih =>
    intro idx s hn
    have hlt : idx < s.total_packets := by omega
    have hr := populate_read_status_only w w' hs (populate_frames idx s)
    by_cases hres : (populate_read w (populate_frames idx s)).result = MA_SUCCESS
    · rw [populate_loop_next w idx s hlt hres, populate_loop_next w' idx s hlt (hr ▸ hres), hr]
      exact ih (idx + 1) _ (by simp only [populate_read, populate_frames, emit]; omega)
    · rw [populate_loop_abort w idx s hlt hres, populate_loop_abort w' idx s hlt (hr ▸ hres), hr]

/-- Each element of `read_events` is a read. -/
theorem count_read_read_events (s : AudioState) (idx n : Nat) :
    count_read (read_events s idx n) = n := by
  induction n generalizing idx with
  | zero => simp [read_events, count_read]
  | succ n ih =>
    rw [read_events_succ]
    have := ih (idx + 1)
    simp only [count_read] at this ⊢
    rw [List.countP_cons_of_pos _ _ (by rfl), this]

/-- Counting reads distributes over concatenation. -/
theorem count_read_append (a b : List Event) :
    count_read (a ++ b) = count_read a + count_read b := by
  simp [count_read]

/-! ## Arithmetic of one iteration -/

/-- Arithmetic facts about an iteration of the loop, when `total_packets` is the value
computed by `audio_calculate_total_packets`. -/
theorem iteration_bounds (s : AudioState) (hp : 0 < s.packetSizeInFrames)
    (htf : s.total_frames < U64)
    (htp : s.total_packets = (audio_calculate_total_packets s).total_packets)
    (i : Nat) (hi : i < s.total_packets) :
    s.total_frames + s.packetSizeInFrames ≤ U64 ∧
    i * s.packetSizeInFrames < s.total_frames ∧
    s.total_frames ≤ s.total_packets * s.packetSizeInFrames ∧
    (i + 1 < s.total_packets →
      i * s.packetSizeInFrames + s.packetSizeInFrames < s.total_frames) ∧
    (i + 1 = s.total_packets →
      s.total_frames ≤ i * s.packetSizeInFrames + s.packetSizeInFrames) := by
  have hnw : s.total_frames + s.packetSizeInFrames ≤ U64 := by
    by_contra hc
    have := total_packets_wrap s htf (by omega)
    omega
  have hq := total_packets_no_wrap s hp hnw
  rw [← htp] at hq
  have h1 := Nat.div_add_mod (s.total_frames + s.packetSizeInFrames - 1) s.packetSizeInFrames
  have h2 := Nat.mod_lt (s.total_frames + s.packetSizeInFrames - 1) hp
  rw [← hq] at h1
  have h3 : (i + 1) * s.packetSizeInFrames ≤ s.total_packets * s.packetSizeInFrames :=
    Nat.mul_le_mul_right _ hi
  rw [Nat.add_mul, Nat.one_mul] at h3
  rw [Nat.mul_comm] at h1
  refine ⟨hnw, by omega, by omega, ?_, ?_⟩
  · intro h
    have h4 : (i + 2) * s.packetSizeInFrames ≤ s.total_packets * s.packetSizeInFrames :=
      Nat.mul_le_mul_right _ h
    rw [Nat.add_mul] at h4
    omega
  · intro h
    rw [← h, Nat.add_mul, Nat.one_mul] at h1
    omega

/-- Without wrap-around the remaining-frame count is the plain difference. -/
theorem framesRemaining_eq (s : AudioState) (htf : s.total_frames < U64) (i : Nat)
    (hi : i * s.packetSizeInFrames < s.total_frames) :
    (populate_frames i s).framesRemaining = s.total_frames - i * s.packetSizeInFrames := by
  have e : (s.total_frames + (U64 - (i * s.packetSizeInFrames) % U64)) % U64
      = s.total_frames - i * s.packetSizeInFrames := by
    simp only [U64] at *
    omega
  simp only [populate_frames, e]

/-- Without wrap-around the request is the minimum of the remainder and the packet size. -/
theorem framesToRead_eq (s : AudioState) (htf : s.total_frames < U64) (i : Nat)
    (hi : i * s.packetSizeInFrames < s.total_frames) :
    (populate_frames i s).framesToRead =
      min (s.total_frames - i * s.packetSizeInFrames) s.packetSizeInFrames := by
  have e : (s.total_frames + (U64 - (i * s.packetSizeInFrames) % U64)) % U64
      = s.total_frames - i * s.packetSizeInFrames := by
    simp only [U64] at *
    omega
  simp only [populate_frames, e]
  split <;> omega

/-- Extracting requests distributes over concatenation. -/
theorem requested_frames_append (a b : List Event) :
    requested_frames (a ++ b) = requested_frames a ++ requested_frames b := by
  induction a with
  | nil => rfl
  | cons e t ih => cases e <;> simp [requested_frames, ih]

/-- The requests of `read_events` are the per-index values of `framesToRead`. -/
theorem requested_frames_read_events (s : AudioState) (idx n : Nat) :
    requested_frames (read_events s idx n) =
      (List.range' idx n).map fun i => (populate_frames i s).framesToRead := by
  induction n generalizing idx with
  | zero => simp [read_events, requested_frames]
  | succ n ih => rw [read_events_succ, requested_frames, ih (idx + 1), List.range'_succ, List.map_cons]

/-- The first `n` requests of a run add up to `min (n * packetSizeInFrames) total_frames`. -/
theorem requests_sum_prefix (s : AudioState) (hp : 0 < s.packetSizeInFrames)
    (htf : s.total_frames < U64)
    (htp : s.total_packets = (audio_calculate_total_packets s).total_packets) :
    ∀ n, n ≤ s.total_packets →
      ((List.range n).map fun i => (populate_frames i s).framesToRead).sum
        = min (n * s.packetSizeInFrames) s.total_frames := by
  intro n
  induction n with
  | zero => intro _; simp
  | succ n ih =>
    intro hn
    obtain ⟨_, h2, _, _, _⟩ := iteration_bounds s hp htf htp n (by omega)
    rw [List.range_succ, List.map_append, List.sum_append, ih (by omega)]
    simp only [List.map_cons, List.map_nil, List.sum_cons, List.sum_nil]
    rw [framesToRead_eq s htf n h2, Nat.add_mul, Nat.one_mul]
    omega

/-- Without wrap-around in the packet count, a run of `audio_populate_buffer` in which every
read succeeds requests exactly `total_frames` frames in total. -/
theorem populate_requests_sum (w : World) (s : AudioState) (hp : 0 < s.packetSizeInFrames)
    (hnw : s.total_frames + s.packetSizeInFrames ≤ U64)
    (htp : s.total_packets = (audio_calculate_total_packets s).total_packets)
    (hall : ∀ j, j < s.total_packets →
      (w.read_pcm_frames (s.reads_served + j)).1 = MA_SUCCESS) :
    (audio_populate_buffer w s).1 = 0 ∧
    (requested_frames (audio_populate_buffer w s).2.trace).sum
      = (requested_frames s.trace).sum + s.total_frames := by
  have htf : s.total_frames < U64 := by omega
  obtain ⟨h1, h2, _⟩ := populate_loop_ok w s.total_packets 0 s rfl hall
  refine ⟨h1, ?_⟩
  simp only [audio_populate_buffer]
  rw [h2, requested_frames_append, requested_frames_append, requested_frames_read_events,
    ← List.range_eq_range', List.sum_append, List.sum_append,
    requests_sum_prefix s hp htf htp s.total_packets (Nat.le_refl _)]
  have hcover : s.total_frames ≤ s.total_packets * s.packetSizeInFrames := by
    have hq := total_packets_no_wrap s hp hnw
    rw [← htp] at hq
    have h1 := Nat.div_add_mod (s.total_frames + s.packetSizeInFrames - 1) s.packetSizeInFrames
    have h2 := Nat.mod_lt (s.total_frames + s.packetSizeInFrames - 1) hp
    rw [← hq, Nat.mul_comm] at h1
    omega
  simp only [requested_frames, List.sum_nil]
  omega

/-! ## The stages before the loop -/

/-- Closed form of the state left by `audio_init_file` when the open succeeds. -/
theorem audio_init_file_ok (w : World) (s : AudioState)
    (hopen : w.init_file_result = MA_SUCCESS) :
    audio_init_file w s =
      (0, { s with result := MA_SUCCESS, trace := s.trace ++ [Event.ma_decoder_init_file] }) := by
  simp [audio_init_file, emit, hopen]

/-- Closed form of the state left by `audio_calculate_total_frames`. -/
theorem audio_calculate_total_frames_state (w : World) (s : AudioState) :
    (audio_calculate_total_frames w s).2 =
      { s with
          result := w.length_result,
          total_frames := w.length_frames % U64,
          trace := s.trace ++ Event.ma_decoder_get_length_in_pcm_frames ::
            (if w.length_result ≠ MA_SUCCESS then
              [Event.printf Msg.failed_to_get_total_frames, Event.ma_decoder_uninit]
            else []) } := by
  unfold audio_calculate_total_frames
  by_cases h : w.length_result = MA_SUCCESS <;> simp [emit, h]

/-- Closed form of the state left by `audio_init_buffer`. -/
theorem audio_init_buffer_state (w : World) (s : AudioState) :
    (audio_init_buffer w s).2 =
      { s with
          audio_data_buffer := w.malloc_ptr,
          trace := s.trace ++ Event.malloc s.packetSizeInBytes ::
            (if w.malloc_ptr = NULL then
              [Event.printf Msg.memory_allocation_failed, Event.ma_decoder_uninit]
            else []) } := by
  unfold audio_init_buffer
  by_cases h : w.malloc_ptr = NULL <;> simp [emit, h]

/-- Closed form of the state at the entry of the loop, after a successful open. -/
theorem populate_entry_state_eq (w : World) (s : AudioState)
    (hopen : w.init_file_result = MA_SUCCESS) :
    populate_entry_state w s =
      { result := w.length_result,
        packetSizeInFrames := s.packetSizeInFrames,
        packetSizeInBytes := (s.packetSizeInFrames * (w.bytes_per_frame % U32)) % U32,
        total_frames := w.length_frames % U64,
        total_packets :=
          (((w.length_frames % U64 + s.packetSizeInFrames) % U64 + (U64 - 1)) % U64)
            / s.packetSizeInFrames,
        framesRemaining := s.framesRemaining,
        framesToRead := s.framesToRead,
        audio_data_buffer := w.malloc_ptr,
        reads_served := s.reads_served,
        trace := s.trace ++
          [Event.ma_decoder_init_file, Event.ma_get_bytes_per_frame,
           Event.ma_decoder_get_length_in_pcm_frames] ++
          (if w.length_result ≠ MA_SUCCESS then
            [Event.printf Msg.failed_to_get_total_frames, Event.ma_decoder_uninit]
          else []) ++
          [Event.malloc ((s.packetSizeInFrames * (w.bytes_per_frame % U32)) % U32)] ++
          (if w.malloc_ptr = NULL then
            [Event.printf Msg.memory_allocation_failed, Event.ma_decoder_uninit]
          else []) ++
          [Event.printf (Msg.total_frames (w.length_frames % U64)),
           Event.printf (Msg.total_packets
            ((((w.length_frames % U64 + s.packetSizeInFrames) % U64 + (U64 - 1)) % U64)
              / s.packetSizeInFrames))] } := by
  simp only [populate_entry_state, audio_init_file_ok w s hopen,
    audio_calculate_total_frames_state, audio_init_buffer_state,
    audio_calculate_packet_size_bytes, audio_calculate_total_packets, emit,
    List.append_assoc, List.cons_append, List.nil_append, List.singleton_append]

/-- After a successful open, `audio_main` runs the loop from the entry state, then
`audio_cleanup`, and returns 0. -/
theorem audio_main_open_ok (w : World) (s : AudioState)
    (hopen : w.init_file_result = MA_SUCCESS) :
    audio_main w s =
      (0, audio_cleanup (audio_populate_buffer w (populate_entry_state w s)).2) := by
  have h : ¬ (audio_init_file w s).1 ≠ 0 := by
    rw [audio_init_file_ok w s hopen]
    simp
  simp only [audio_main, populate_entry_state, h, if_false]

/-! ## Claims -/

/-- C1: at `total_frames = 2^64 - 1` and `packetSizeInFrames = 1024` the 64-bit sum
`total_frames + packetSizeInFrames - 1` wraps to 1022, so `audio_calculate_total_packets`
stores 0 in `total_packets`, whereas the mathematical ceiling of the quotient is `2^54`. -/
theorem total_packets_wraps_at_max_frames :
    (audio_calculate_total_packets max_frames_state).total_packets = 0 ∧
    ⌈((max_frames_state.total_frames : ℚ) / (max_frames_state.packetSizeInFrames : ℚ))⌉₊
      = 2 ^ 54 := by
  constructor
  · decide
  · rw [Nat.ceil_eq_iff (by norm_num)]
    norm_num [max_frames_state, initial_state]

/-- C2: for a source announcing `2^64 - 1` frames, with every call succeeding, the run of
`audio_main` keeps `total_frames = 2^64 - 1` but computes `total_packets = 0`, issues no read
at all, and so the requested frame counts add up to 0 instead of `total_frames`. -/
theorem huge_file_requests_no_frames :
    (audio_main huge_file_world initial_state).2.total_frames = 2 ^ 64 - 1 ∧
    (audio_main huge_file_world initial_state).2.total_packets = 0 ∧
    requested_frames (audio_main huge_file_world initial_state).2.trace = [] ∧
    (requested_frames (audio_main huge_file_world initial_state).2.trace).sum = 0 := by
  simp [audio_main, audio_init_file, audio_calculate_packet_size_bytes,
    audio_calculate_total_frames, audio_calculate_total_packets, audio_init_buffer,
    audio_populate_buffer, audio_cleanup, populate_loop_done, emit, huge_file_world,
    initial_state, MA_SUCCESS, NULL, U32, U64, requested_frames]

/-- C3: when `total_packets` is the value computed by `audio_calculate_total_packets`, every
iteration `packetIndex < total_packets` of the loop computes `framesToRead = packetSizeInFrames`
if it is not the last one, and on the last one
`framesToRead = total_frames - (total_packets - 1) * packetSizeInFrames`, a value between 1 and
`packetSizeInFrames`, equal to `packetSizeInFrames` when `total_frames` is a multiple of it. -/
theorem framesToRead_per_iteration (s : AudioState) (hp : 0 < s.packetSizeInFrames)
    (htf : s.total_frames < U64)
    (htp : s.total_packets = (audio_calculate_total_packets s).total_packets)
    (packetIndex : Nat) (hi : packetIndex < s.total_packets) :
    (packetIndex + 1 < s.total_packets →
      (populate_frames packetIndex s).framesToRead = s.packetSizeInFrames) ∧
    (packetIndex + 1 = s.total_packets →
      (populate_frames packetIndex s).framesToRead
        = s.total_frames - (s.total_packets - 1) * s.packetSizeInFrames ∧
      1 ≤ (populate_frames packetIndex s).framesToRead ∧
      (populate_frames packetIndex s).framesToRead ≤ s.packetSizeInFrames ∧
      (s.packetSizeInFrames ∣ s.total_frames →
        (populate_frames packetIndex s).framesToRead = s.packetSizeInFrames)) := by
  obtain ⟨_, h2, _, h4, h5⟩ := iteration_bounds s hp htf htp packetIndex hi
  rw [framesToRead_eq s htf packetIndex h2]
  refine ⟨fun h => ?_, fun h => ?_⟩
  · have := h4 h
    omega
  · have h6 := h5 h
    have e : s.total_packets - 1 = packetIndex := by omega
    rw [e]
    refine ⟨by omega, by omega, by omega, ?_⟩
    rintro ⟨k, hk⟩
    have hlt : packetIndex < k := by
      apply Nat.lt_of_mul_lt_mul_left (a := s.packetSizeInFrames)
      rw [← hk, Nat.mul_comm]
      exact h2
    have h7 : s.packetSizeInFrames * (packetIndex + 1) ≤ s.packetSizeInFrames * k :=
      Nat.mul_le_mul_left _ hlt
    rw [← hk, Nat.mul_add, Nat.mul_one, Nat.mul_comm] at h7
    omega

/-- Instance: 2500 frames in packets of 1024, at the last index 2 of 3. -/
theorem framesToRead_per_iteration_witness :
    (2 + 1 < frames_2500_state.total_packets →
      (populate_frames 2 frames_2500_state).framesToRead = frames_2500_state.packetSizeInFrames) ∧
    (2 + 1 = frames_2500_state.total_packets →
      (populate_frames 2 frames_2500_state).framesToRead
        = frames_2500_state.total_frames
          - (frames_2500_state.total_packets - 1) * frames_2500_state.packetSizeInFrames ∧
      1 ≤ (populate_frames 2 frames_2500_state).framesToRead ∧
      (populate_frames 2 frames_2500_state).framesToRead ≤ frames_2500_state.packetSizeInFrames ∧
      (frames_2500_state.packetSizeInFrames ∣ frames_2500_state.total_frames →
        (populate_frames 2 frames_2500_state).framesToRead
          = frames_2500_state.packetSizeInFrames)) :=
  framesToRead_per_iteration frames_2500_state (by decide) (by decide) (by decide) 2 (by decide)

/-- C4: at `total_frames = 2^64 - 1` and `packetSizeInFrames = 1024` the computed
`total_packets` is 0, so `total_packets * packetSizeInFrames >= total_frames` is false. -/
theorem geometry_invariant_fails_at_max_frames :
    max_frames_state.total_frames < U64 ∧ 0 < max_frames_state.packetSizeInFrames ∧
    ¬ ((audio_calculate_total_packets max_frames_state).total_packets
        * max_frames_state.packetSizeInFrames ≥ max_frames_state.total_frames) := by
  decide

/-- C5: when the source opens but the frame-count query fails, the stage
`audio_calculate_total_frames` returns `-1`, yet `audio_main` returns 0 and `main` returns 0. -/
theorem audio_main_returns_zero_after_stage_failure :
    (audio_calculate_total_frames length_fail_world
      (audio_calculate_packet_size_bytes length_fail_world
        (audio_init_file length_fail_world initial_state).2)).1 = -1 ∧
    (audio_main length_fail_world initial_state).1 = 0 ∧
    (main length_fail_world initial_state).1 = 0 := by
  simp [main, audio_main, audio_init_file, audio_calculate_packet_size_bytes,
    audio_calculate_total_frames, emit, length_fail_world, initial_state, MA_SUCCESS]

/-- C6: if the read at packet index `k < total_packets` is the first to fail, then
`audio_populate_buffer` returns `-4`, and what it appends to the trace is exactly the reads
for the indices `0, 1, ..., k` in that order, followed by the failure message, the `free` and
the `ma_decoder_uninit`: `k + 1` reads are issued and none for an index above `k`. -/
theorem populate_stops_at_first_failed_read (w : World) (s : AudioState) (k : Nat)
    (hk : k < s.total_packets)
    (hok : ∀ i, i < k → (w.read_pcm_frames (s.reads_served + i)).1 = MA_SUCCESS)
    (hfail : (w.read_pcm_frames (s.reads_served + k)).1 ≠ MA_SUCCESS) :
    (audio_populate_buffer w s).1 = -4 ∧
    (audio_populate_buffer w s).2.trace =
      s.trace ++
        (List.range' 0 (k + 1)).map (fun i =>
          Event.ma_decoder_read_pcm_frames s.audio_data_buffer
            (populate_frames i s).framesToRead) ++
        [Event.printf Msg.failed_to_read_audio_data, Event.free s.audio_data_buffer,
         Event.ma_decoder_uninit] ∧
    count_read (audio_populate_buffer w s).2.trace = count_read s.trace + (k + 1) ∧
    (audio_populate_buffer w s).2.reads_served = s.reads_served + (k + 1) := by
  obtain ⟨h1, h2, h3⟩ := populate_loop_fail w k 0 s (by omega) hok hfail
  refine ⟨h1, h2, ?_, h3⟩
  simp only [audio_populate_buffer]
  rw [h2, count_read_append, count_read_append, count_read_read_events]
  simp [count_read]

/-- Instance: the read of packet index 1 of 3 fails, and exactly two reads are issued. -/
theorem populate_stops_at_first_failed_read_witness :
    (audio_populate_buffer read_fail_world frames_2500_state).1 = -4 ∧
    (audio_populate_buffer read_fail_world frames_2500_state).2.trace =
      frames_2500_state.trace ++
        (List.range' 0 (1 + 1)).map (fun i =>
          Event.ma_decoder_read_pcm_frames frames_2500_state.audio_data_buffer
            (populate_frames i frames_2500_state).framesToRead) ++
        [Event.printf Msg.failed_to_read_audio_data,
         Event.free frames_2500_state.audio_data_buffer, Event.ma_decoder_uninit] ∧
    count_read (audio_populate_buffer read_fail_world frames_2500_state).2.trace
      = count_read frames_2500_state.trace + (1 + 1) ∧
    (audio_populate_buffer read_fail_world frames_2500_state).2.reads_served
      = frames_2500_state.reads_served + (1 + 1) :=
  populate_stops_at_first_failed_read read_fail_world frames_2500_state 1
    (by decide) (by decide) (by decide)

/-- C7: in the run where the read of packet 1 of 3 fails, the failure branch of
`audio_populate_buffer` frees the buffer and uninitialises the decoder, and `audio_main` then
calls `audio_cleanup` all the same: `free` is applied to the buffer twice and
`ma_decoder_uninit` to the decoder twice. -/
theorem read_failure_releases_twice :
    (audio_main read_fail_world initial_state).2.trace =
      [Event.ma_decoder_init_file, Event.ma_get_bytes_per_frame,
       Event.ma_decoder_get_length_in_pcm_frames, Event.malloc 4096,
       Event.printf (Msg.total_frames 2500), Event.printf (Msg.total_packets 3),
       Event.ma_decoder_read_pcm_frames 4096 1024, Event.ma_decoder_read_pcm_frames 4096 1024,
       Event.printf Msg.failed_to_read_audio_data, Event.free 4096, Event.ma_decoder_uninit,
       Event.free 4096, Event.ma_decoder_uninit] ∧
    count_free (audio_main read_fail_world initial_state).2.trace = 2 ∧
    count_uninit (audio_main read_fail_world initial_state).2.trace = 2 := by
  have h : (audio_main read_fail_world initial_state).2.trace =
      [Event.ma_decoder_init_file, Event.ma_get_bytes_per_frame,
       Event.ma_decoder_get_length_in_pcm_frames, Event.malloc 4096,
       Event.printf (Msg.total_frames 2500), Event.printf (Msg.total_packets 3),
       Event.ma_decoder_read_pcm_frames 4096 1024, Event.ma_decoder_read_pcm_frames 4096 1024,
       Event.printf Msg.failed_to_read_audio_data, Event.free 4096, Event.ma_decoder_uninit,
       Event.free 4096, Event.ma_decoder_uninit] := by
    simp [audio_main, audio_init_file, audio_calculate_packet_size_bytes,
      audio_calculate_total_frames, audio_calculate_total_packets, audio_init_buffer,
      audio_populate_buffer, audio_cleanup, populate_loop_next, populate_loop_abort,
      populate_read, populate_frames, populate_fail, emit, read_fail_world, initial_state,
      MA_SUCCESS, NULL, U32, U64]
  rw [h]
  exact ⟨rfl, by decide, by decide⟩

/-- C8: when `ma_decoder_init_file` does not return `MA_SUCCESS`, `audio_main` returns `-1`
(and `main` returns `-1`); the only calls made are the failed open and its message, and apart
from `result` and the trace every static keeps its value: no frame-count query, no allocation,
no read, no `free`, no `ma_decoder_uninit`. -/
theorem open_failure_stops_pipeline (w : World) (s : AudioState)
    (h : w.init_file_result ≠ MA_SUCCESS) :
    (audio_main w s).1 = -1 ∧
    (audio_main w s).2 =
      { s with
          result := w.init_file_result,
          trace := s.trace ++ [Event.ma_decoder_init_file,
                               Event.printf Msg.could_not_load_file] } ∧
    (main w s).1 = -1 := by
  simp [main, audio_main, audio_init_file, emit, h]

/-- Instance: a source that does not exist. -/
theorem open_failure_stops_pipeline_witness :
    (audio_main open_fail_world initial_state).1 = -1 ∧
    (audio_main open_fail_world initial_state).2 =
      { initial_state with
          result := open_fail_world.init_file_result,
          trace := initial_state.trace ++ [Event.ma_decoder_init_file,
                                           Event.printf Msg.could_not_load_file] } ∧
    (main open_fail_world initial_state).1 = -1 :=
  open_failure_stops_pipeline open_fail_world initial_state (by decide)

/-- C9 (as stated, refuted): the first read of `short_read_world` delivers 100 frames where
1024 were requested, with status `MA_SUCCESS`; `audio_populate_buffer` does not return a
negative code and goes on to issue all three reads. -/
theorem short_read_with_success_status_not_detected :
    (short_read_world.read_pcm_frames 0).2 < (populate_frames 0 frames_2500_state).framesToRead ∧
    ¬ ((audio_populate_buffer short_read_world frames_2500_state).1 < 0) ∧
    (audio_populate_buffer short_read_world frames_2500_state).1 = 0 ∧
    count_read (audio_populate_buffer short_read_world frames_2500_state).2.trace = 3 := by
  obtain ⟨h1, h2, _⟩ := populate_loop_ok short_read_world 3 0 frames_2500_state (by decide)
    (by decide)
  refine ⟨by decide, ?_, ?_, ?_⟩
  · simp only [audio_populate_buffer]
    rw [h1]
    decide
  · exact h1
  · simp only [audio_populate_buffer]
    rw [h2, count_read_append, count_read_append, count_read_read_events]
    decide

/-- C9 (amended): if the read at index `k` returns a status other than `MA_SUCCESS` (the
earlier reads having succeeded), `audio_populate_buffer` aborts the loop right after that read
and returns `-4`, whether or not the read was short; the delivered frame counts are never
inspected: any world whose reads carry the same statuses, whatever frame counts they deliver,
gives the same result and the same final state. -/
theorem populate_aborts_on_failed_status (w : World) (s : AudioState) (k : Nat)
    (hk : k < s.total_packets)
    (hok : ∀ i, i < k → (w.read_pcm_frames (s.reads_served + i)).1 = MA_SUCCESS)
    (hfail : (w.read_pcm_frames (s.reads_served + k)).1 ≠ MA_SUCCESS) :
    (audio_populate_buffer w s).1 = -4 ∧
    (audio_populate_buffer w s).2.reads_served = s.reads_served + (k + 1) ∧
    ∀ w2 : World, (∀ n, (w2.read_pcm_frames n).1 = (w.read_pcm_frames n).1) →
      audio_populate_buffer w2 s = audio_populate_buffer w s := by
  obtain ⟨h1, _, h3⟩ := populate_loop_fail w k 0 s (by omega) hok hfail
  exact ⟨h1, h3, fun w2 hs => populate_loop_status_only w w2 hs _ 0 s rfl⟩

/-- Instance: a 2500-frame source whose read of packet 1 fails after delivering all the
frames asked for. -/
theorem populate_aborts_on_failed_status_witness :
    (audio_populate_buffer full_failed_read_world frames_2500_state).1 = -4 ∧
    (audio_populate_buffer full_failed_read_world frames_2500_state).2.reads_served
      = frames_2500_state.reads_served + (1 + 1) ∧
    ∀ w2 : World,
      (∀ n, (w2.read_pcm_frames n).1 = (full_failed_read_world.read_pcm_frames n).1) →
      audio_populate_buffer w2 frames_2500_state
        = audio_populate_buffer full_failed_read_world frames_2500_state :=
  populate_aborts_on_failed_status full_failed_read_world frames_2500_state 1
    (by decide) (by decide) (by decide)

/-- C10: when the source opens, reports 0 frames, and the allocation succeeds, the run of
`audio_main` returns 0 with `total_packets = 0`; `audio_populate_buffer` entered with
`total_packets = 0` returns 0 having only printed its completion message; the trace of the run
is the open, the geometry queries,
the allocation, the two informational messages, the completion message of
`audio_populate_buffer` (no read in between), then one `free` of the allocated buffer and one
`ma_decoder_uninit`. -/
theorem empty_source_run (w : World) (s : AudioState)
    (hp : 0 < s.packetSizeInFrames) (hp32 : s.packetSizeInFrames < U32)
    (hopen : w.init_file_result = MA_SUCCESS) (hlen : w.length_result = MA_SUCCESS)
    (hzero : w.length_frames = 0) (halloc : w.malloc_ptr ≠ NULL) :
    (audio_main w s).1 = 0 ∧
    (audio_main w s).2.total_packets = 0 ∧
    (∀ s2 : AudioState, s2.total_packets = 0 →
      audio_populate_buffer w s2 = (0, emit (Event.printf Msg.populate_completed) s2)) ∧
    (audio_main w s).2.trace =
      s.trace ++
        [Event.ma_decoder_init_file, Event.ma_get_bytes_per_frame,
         Event.ma_decoder_get_length_in_pcm_frames,
         Event.malloc ((s.packetSizeInFrames * (w.bytes_per_frame % U32)) % U32),
         Event.printf (Msg.total_frames 0), Event.printf (Msg.total_packets 0),
         Event.printf Msg.populate_completed,
         Event.free w.malloc_ptr, Event.ma_decoder_uninit] ∧
    count_read (audio_main w s).2.trace = count_read s.trace ∧
    count_free (audio_main w s).2.trace = count_free s.trace + 1 ∧
    count_uninit (audio_main w s).2.trace = count_uninit s.trace + 1 := by
  have hm := audio_main_open_ok w s hopen
  have he := populate_entry_state_eq w s hopen
  have htp : (populate_entry_state w s).total_packets = 0 := by
    rw [he]
    show ((w.length_frames % U64 + s.packetSizeInFrames) % U64 + (U64 - 1)) % U64
      / s.packetSizeInFrames = 0
    rw [hzero]
    apply Nat.div_eq_of_lt
    simp only [U64, U32] at *
    omega
  have hpop : audio_populate_buffer w (populate_entry_state w s)
      = (0, emit (Event.printf Msg.populate_completed) (populate_entry_state w s)) :=
    populate_loop_done w 0 _ (by omega)
  have ht : (audio_main w s).2.trace =
      s.trace ++
        [Event.ma_decoder_init_file, Event.ma_get_bytes_per_frame,
         Event.ma_decoder_get_length_in_pcm_frames,
         Event.malloc ((s.packetSizeInFrames * (w.bytes_per_frame % U32)) % U32),
         Event.printf (Msg.total_frames 0), Event.printf (Msg.total_packets 0),
         Event.printf Msg.populate_completed,
         Event.free w.malloc_ptr, Event.ma_decoder_uninit] := by
    have h0 : ¬ w.length_result ≠ MA_SUCCESS := by simp [hlen]
    have hz : (0 + s.packetSizeInFrames) % U64 = s.packetSizeInFrames := by
      simp only [U64, U32] at *
      omega
    have hq : (s.packetSizeInFrames + (U64 - 1)) % U64 / s.packetSizeInFrames = 0 := by
      apply Nat.div_eq_of_lt
      simp only [U64, U32] at *
      omega
    rw [hm, hpop]
    simp only [audio_cleanup, emit]
    rw [he]
    simp only [hzero, Nat.zero_mod, hz, hq, h0, halloc, if_false, List.append_assoc,
      List.cons_append, List.nil_append, List.append_nil]
  refine ⟨?_, ?_, ?_, ht, ?_, ?_, ?_⟩
  · rw [hm]
  · rw [hm, hpop]
    exact htp
  · intro s2 h2
    exact populate_loop_done w 0 s2 (by omega)
  · rw [ht]; simp [count_read]
  · rw [ht]; simp [count_free]
  · rw [ht]; simp [count_uninit]

/-- Instance: an empty source, from the static initial state (packets of 1024 frames). -/
theorem empty_source_run_witness :
    (audio_main empty_file_world initial_state).1 = 0 ∧
    (audio_main empty_file_world initial_state).2.total_packets = 0 ∧
    (∀ s2 : AudioState, s2.total_packets = 0 →
      audio_populate_buffer empty_file_world s2
        = (0, emit (Event.printf Msg.populate_completed) s2)) ∧
    (audio_main empty_file_world initial_state).2.trace =
      initial_state.trace ++
        [Event.ma_decoder_init_file, Event.ma_get_bytes_per_frame,
         Event.ma_decoder_get_length_in_pcm_frames,
         Event.malloc ((initial_state.packetSizeInFrames
            * (empty_file_world.bytes_per_frame % U32)) % U32),
         Event.printf (Msg.total_frames 0), Event.printf (Msg.total_packets 0),
         Event.printf Msg.populate_completed,
         Event.free empty_file_world.malloc_ptr, Event.ma_decoder_uninit] ∧
    count_read (audio_main empty_file_world initial_state).2.trace
      = count_read initial_state.trace ∧
    count_free (audio_main empty_file_world initial_state).2.trace
      = count_free initial_state.trace + 1 ∧
    count_uninit (audio_main empty_file_world initial_state).2.trace
      = count_uninit initial_state.trace + 1 :=
  empty_source_run empty_file_world initial_state (by decide) (by decide) (by decide)
    (by decide) (by decide) (by decide)

/-! ## General shape of a run of the loop -/

/-- The loop changes neither the geometry, nor the buffer pointer. -/
theorem populate_loop_frame (w : World) :
    ∀ (n idx : Nat) (s : AudioState), s.total_packets - idx = n →
      (populate_loop w idx s).2.packetSizeInFrames = s.packetSizeInFrames ∧
      (populate_loop w idx s).2.packetSizeInBytes = s.packetSizeInBytes ∧
      (populate_loop w idx s).2.total_frames = s.total_frames ∧
      (populate_loop w idx s).2.total_packets = s.total_packets ∧
      (populate_loop w idx s).2.audio_data_buffer = s.audio_data_buffer := by
  intro n
  induction n with
  | zero =>
    intro idx s hn
    have hlt : ¬ idx < s.total_packets := by omega
    rw [populate_loop_done w idx s hlt]
    simp [emit]
  | succ n ih =>
    intro idx s hn
    have hlt : idx < s.total_packets := by omega
    by_cases hres : (populate_read w (populate_frames idx s)).result = MA_SUCCESS
    · rw [populate_loop_next w idx s hlt hres]
      have := ih (idx + 1) (populate_read w (populate_frames idx s))
        (by simp only [populate_read, populate_frames, emit]; omega)
      simpa [populate_read, populate_frames, emit] using this
    · rw [populate_loop_abort w idx s hlt hres]
      simp [populate_fail, populate_read, populate_frames, emit]

/-- Every run of the loop has one of two shapes: all remaining reads succeed and it returns 0,
or the read `k` iterations ahead is the first to fail and it returns `-4` right after it. -/
theorem populate_loop_cases (w : World) (idx : Nat) (s : AudioState) :
    ((∀ j, j < s.total_packets - idx →
        (w.read_pcm_frames (s.reads_served + j)).1 = MA_SUCCESS) ∧
      (populate_loop w idx s).1 = 0 ∧
      (populate_loop w idx s).2.trace =
        s.trace ++ read_events s idx (s.total_packets - idx)
          ++ [Event.printf Msg.populate_completed] ∧
      (populate_loop w idx s).2.reads_served = s.reads_served + (s.total_packets - idx)) ∨
    (∃ k, idx + k < s.total_packets ∧
      (∀ j, j < k → (w.read_pcm_frames (s.reads_served + j)).1 = MA_SUCCESS) ∧
      (w.read_pcm_frames (s.reads_served + k)).1 ≠ MA_SUCCESS ∧
      (populate_loop w idx s).1 = -4 ∧
      (populate_loop w idx s).2.trace =
        s.trace ++ read_events s idx (k + 1) ++
          [Event.printf Msg.failed_to_read_audio_data, Event.free s.audio_data_buffer,
           Event.ma_decoder_uninit] ∧
      (populate_loop w idx s).2.reads_served = s.reads_served + k + 1) := by
  by_cases hall : ∀ j, j < s.total_packets - idx →
      (w.read_pcm_frames (s.reads_served + j)).1 = MA_SUCCESS
  · left
    exact ⟨hall, populate_loop_ok w _ idx s rfl hall⟩
  · right
    have hex : ∃ j, j < s.total_packets - idx ∧
        (w.read_pcm_frames (s.reads_served + j)).1 ≠ MA_SUCCESS := by
      by_contra hne
      apply hall
      intro j hj
      by_contra hbad
      exact hne ⟨j, hj, hbad⟩
    classical
    refine ⟨Nat.find hex, ?_, ?_, (Nat.find_spec hex).2, ?_⟩
    · have := (Nat.find_spec hex).1
      omega
    · intro j hj
      by_contra hbad
      exact Nat.find_min hex hj ⟨by have := (Nat.find_spec hex).1; omega, hbad⟩
    · refine populate_loop_fail w (Nat.find hex) idx s ?_ ?_ (Nat.find_spec hex).2
      · have := (Nat.find_spec hex).1
        omega
      · intro j hj
        by_contra hbad
        exact Nat.find_min hex hj ⟨by have := (Nat.find_spec hex).1; omega, hbad⟩

/-- Every element of `read_events` is the read of some index of its range. -/
theorem mem_read_events (s : AudioState) (idx n : Nat) (e : Event)
    (h : e ∈ read_events s idx n) :
    ∃ i, idx ≤ i ∧ i < idx + n ∧
      e = Event.ma_decoder_read_pcm_frames s.audio_data_buffer
            (populate_frames i s).framesToRead := by
  simp only [read_events, List.mem_map, List.mem_range'_1] at h
  obtain ⟨i, ⟨h1, h2⟩, h3⟩ := h
  exact ⟨i, h1, h2, h3.symm⟩

/-- The request computed by the loop body never exceeds the packet size. -/
theorem framesToRead_le (s : AudioState) (i : Nat) :
    (populate_frames i s).framesToRead ≤ s.packetSizeInFrames := by
  simp only [populate_frames]
  split <;> omega

/-- The trace of a run of `audio_main` after a successful open extends the trace at the
entry of the loop. -/
theorem entry_trace_prefix (w : World) (s : AudioState)
    (hopen : w.init_file_result = MA_SUCCESS) :
    ∃ rest, (audio_main w s).2.trace = (populate_entry_state w s).trace ++ rest := by
  rw [audio_main_open_ok w s hopen]
  simp only [audio_cleanup, emit, audio_populate_buffer]
  rcases populate_loop_cases w 0 (populate_entry_state w s) with
    ⟨_, _, ht, _⟩ | ⟨k, _, _, _, _, ht, _⟩
  · rw [ht]
    simp only [List.append_assoc]
    exact ⟨_, rfl⟩
  · rw [ht]
    simp only [List.append_assoc]
    exact ⟨_, rfl⟩

/-! ## Claims (continued) -/

/-- When `total_packets` is the computed packet count, the requests for the indices
`idx, ..., idx + n - 1`, served from the cursor `idx * packetSizeInFrames`, cover the
consecutive ranges `[i * packetSizeInFrames, min ((i + 1) * packetSizeInFrames) total_frames)`. -/
theorem packet_ranges_of_requests (s : AudioState) (hp : 0 < s.packetSizeInFrames)
    (htf : s.total_frames < U64)
    (htp : s.total_packets = (audio_calculate_total_packets s).total_packets) :
    ∀ (n idx : Nat), idx + n ≤ s.total_packets →
      packet_ranges_from (min (idx * s.packetSizeInFrames) s.total_frames)
          ((List.range' idx n).map fun i => (populate_frames i s).framesToRead)
        = (List.range' idx n).map fun i =>
            (i * s.packetSizeInFrames, min ((i + 1) * s.packetSizeInFrames) s.total_frames) := by
  intro n
  induction n with
  | zero => intro idx _; simp [packet_ranges_from]
  | succ n ih =>
    intro idx h
    obtain ⟨_, h2, _, _, _⟩ := iteration_bounds s hp htf htp idx (by omega)
    have hc : min (idx * s.packetSizeInFrames) s.total_frames = idx * s.packetSizeInFrames := by
      omega
    have hn : idx * s.packetSizeInFrames + (populate_frames idx s).framesToRead
        = min ((idx + 1) * s.packetSizeInFrames) s.total_frames := by
      rw [framesToRead_eq s htf idx h2, Nat.add_mul, Nat.one_mul]
      omega
    rw [List.range'_succ]
    simp only [List.map_cons, packet_ranges_from]
    rw [hc, hn, ih (idx + 1) (by omega)]

/-- Without wrap-around in the packet count, a run of `audio_populate_buffer` in which every
read succeeds issues the reads of the indices `0, ..., total_packets - 1` in order; read `i`
covers the source frames from `i * packetSizeInFrames` up to
`min ((i + 1) * packetSizeInFrames) total_frames`, and the last bound is `total_frames`. -/
theorem populate_ranges_no_wrap (w : World) (s : AudioState) (hp : 0 < s.packetSizeInFrames)
    (hnw : s.total_frames + s.packetSizeInFrames ≤ U64)
    (htp : s.total_packets = (audio_calculate_total_packets s).total_packets)
    (hall : ∀ j, j < s.total_packets →
      (w.read_pcm_frames (s.reads_served + j)).1 = MA_SUCCESS) :
    (audio_populate_buffer w s).2.trace =
      s.trace ++ read_events s 0 s.total_packets ++ [Event.printf Msg.populate_completed] ∧
    packet_ranges_from 0 (requested_frames (read_events s 0 s.total_packets))
      = (List.range' 0 s.total_packets).map (fun i =>
          (i * s.packetSizeInFrames, min ((i + 1) * s.packetSizeInFrames) s.total_frames)) ∧
    min (s.total_packets * s.packetSizeInFrames) s.total_frames = s.total_frames := by
  have htf : s.total_frames < U64 := by omega
  obtain ⟨_, h2, _⟩ := populate_loop_ok w s.total_packets 0 s rfl hall
  refine ⟨h2, ?_, ?_⟩
  · have := packet_ranges_of_requests s hp htf htp s.total_packets 0 (by omega)
    rw [requested_frames_read_events]
    simpa using this
  · have := (geometry_no_wrap s hp hnw).1
    rw [← htp] at this
    omega

/-- C11: for a source announcing `2^64 - 1` frames, with every call succeeding, the run of
`audio_main` issues no read, so the packets cover no frame range at all, although
`total_frames = 2^64 - 1` frames are to be covered. -/
theorem huge_file_covers_no_frame :
    (audio_main huge_file_world initial_state).2.total_frames = 2 ^ 64 - 1 ∧
    count_read (audio_main huge_file_world initial_state).2.trace = 0 ∧
    packet_ranges_from 0 (requested_frames (audio_main huge_file_world initial_state).2.trace)
      = [] := by
  simp [audio_main, audio_init_file, audio_calculate_packet_size_bytes,
    audio_calculate_total_frames, audio_calculate_total_packets, audio_init_buffer,
    audio_populate_buffer, audio_cleanup, populate_loop_done, emit, huge_file_world,
    initial_state, MA_SUCCESS, NULL, U32, U64, requested_frames, packet_ranges_from, count_read]

/-- C12 (as stated, refuted): with 0 bytes per frame the computed `packetSizeInBytes` is 0,
yet `audio_main` returns 0, calls `malloc(0)` and issues all three reads of a 2500-frame
source. -/
theorem zero_packet_size_runs_to_completion :
    (populate_entry_state zero_bytes_world initial_state).packetSizeInBytes = 0 ∧
    ¬ ((audio_main zero_bytes_world initial_state).1 ≠ 0) ∧
    (audio_main zero_bytes_world initial_state).2.trace =
      [Event.ma_decoder_init_file, Event.ma_get_bytes_per_frame,
       Event.ma_decoder_get_length_in_pcm_frames, Event.malloc 0,
       Event.printf (Msg.total_frames 2500), Event.printf (Msg.total_packets 3),
       Event.ma_decoder_read_pcm_frames 4096 1024, Event.ma_decoder_read_pcm_frames 4096 1024,
       Event.ma_decoder_read_pcm_frames 4096 452, Event.printf Msg.populate_completed,
       Event.free 4096, Event.ma_decoder_uninit] ∧
    count_read (audio_main zero_bytes_world initial_state).2.trace = 3 := by
  have h : (audio_main zero_bytes_world initial_state).2.trace =
      [Event.ma_decoder_init_file, Event.ma_get_bytes_per_frame,
       Event.ma_decoder_get_length_in_pcm_frames, Event.malloc 0,
       Event.printf (Msg.total_frames 2500), Event.printf (Msg.total_packets 3),
       Event.ma_decoder_read_pcm_frames 4096 1024, Event.ma_decoder_read_pcm_frames 4096 1024,
       Event.ma_decoder_read_pcm_frames 4096 452, Event.printf Msg.populate_completed,
       Event.free 4096, Event.ma_decoder_uninit] := by
    simp [audio_main, audio_init_file, audio_calculate_packet_size_bytes,
      audio_calculate_total_frames, audio_calculate_total_packets, audio_init_buffer,
      audio_populate_buffer, audio_cleanup, populate_loop_next, populate_loop_done,
      populate_read, populate_frames, emit, zero_bytes_world, initial_state,
      MA_SUCCESS, NULL, U32, U64]
  refine ⟨by decide, ?_, h, ?_⟩
  · rw [audio_main_open_ok zero_bytes_world initial_state (by decide)]
    decide
  · rw [h]
    decide

/-- C12 (amended): when the computed `packetSizeInBytes` is 0, no geometry error is raised.
If moreover the open, the length query, the allocation `malloc(0)` and every read succeed
(with `0 < packetSizeInFrames`), `audio_main` allocates with `malloc(0)`, issues the reads of
all `total_packets` packets into that buffer, releases both resources once and returns 0. -/
theorem zero_packet_size_not_rejected (w : World) (s : AudioState)
    (hp : 0 < s.packetSizeInFrames)
    (hopen : w.init_file_result = MA_SUCCESS) (hlen : w.length_result = MA_SUCCESS)
    (halloc : w.malloc_ptr ≠ NULL)
    (hzero : (s.packetSizeInFrames * (w.bytes_per_frame % U32)) % U32 = 0)
    (hall : ∀ j, j < (populate_entry_state w s).total_packets →
      (w.read_pcm_frames (s.reads_served + j)).1 = MA_SUCCESS) :
    (populate_entry_state w s).packetSizeInBytes = 0 ∧
    (audio_main w s).1 = 0 ∧
    (audio_main w s).2.trace =
      s.trace ++
        [Event.ma_decoder_init_file, Event.ma_get_bytes_per_frame,
         Event.ma_decoder_get_length_in_pcm_frames, Event.malloc 0,
         Event.printf (Msg.total_frames (populate_entry_state w s).total_frames),
         Event.printf (Msg.total_packets (populate_entry_state w s).total_packets)] ++
        read_events (populate_entry_state w s) 0 (populate_entry_state w s).total_packets ++
        [Event.printf Msg.populate_completed, Event.free w.malloc_ptr,
         Event.ma_decoder_uninit] ∧
    count_read (audio_main w s).2.trace
      = count_read s.trace + (populate_entry_state w s).total_packets := by
  -- the division of main.c 195 is defined
  have _hdiv : s.packetSizeInFrames ≠ 0 := by omega
  have hm := audio_main_open_ok w s hopen
  have he := populate_entry_state_eq w s hopen
  have h0 : ¬ w.length_result ≠ MA_SUCCESS := by simp [hlen]
  have hsz : (populate_entry_state w s).packetSizeInBytes = 0 := by
    rw [he]
    exact hzero
  have hbuf : (populate_entry_state w s).audio_data_buffer = w.malloc_ptr := by
    rw [he]
  have hserved : (populate_entry_state w s).reads_served = s.reads_served := by
    rw [he]
  have htr : (populate_entry_state w s).trace =
      s.trace ++
        [Event.ma_decoder_init_file, Event.ma_get_bytes_per_frame,
         Event.ma_decoder_get_length_in_pcm_frames, Event.malloc 0,
         Event.printf (Msg.total_frames (populate_entry_state w s).total_frames),
         Event.printf (Msg.total_packets (populate_entry_state w s).total_packets)] := by
    rw [he]
    simp only [hzero, h0, halloc, if_false, List.append_assoc, List.cons_append,
      List.nil_append, List.append_nil]
  obtain ⟨_, hpt, _⟩ := populate_loop_ok w (populate_entry_state w s).total_packets 0
    (populate_entry_state w s) rfl (by rw [hserved]; exact hall)
  obtain ⟨_, _, _, _, hpb⟩ := populate_loop_frame w _ 0 (populate_entry_state w s) rfl
  have ht : (audio_main w s).2.trace =
      s.trace ++
        [Event.ma_decoder_init_file, Event.ma_get_bytes_per_frame,
         Event.ma_decoder_get_length_in_pcm_frames, Event.malloc 0,
         Event.printf (Msg.total_frames (populate_entry_state w s).total_frames),
         Event.printf (Msg.total_packets (populate_entry_state w s).total_packets)] ++
        read_events (populate_entry_state w s) 0 (populate_entry_state w s).total_packets ++
        [Event.printf Msg.populate_completed, Event.free w.malloc_ptr,
         Event.ma_decoder_uninit] := by
    rw [hm]
    simp only [audio_cleanup, emit, audio_populate_buffer]
    rw [hpt, hpb, hbuf, ← htr]
    simp only [List.append_assoc, List.cons_append, List.nil_append]
  refine ⟨hsz, by rw [hm], ht, ?_⟩
  rw [ht, count_read_append, count_read_append, count_read_append, count_read_read_events]
  simp [count_read]

/-- Instance: the 2500-frame source whose format reports 0 bytes per frame, every call
succeeding. -/
theorem zero_packet_size_not_rejected_witness :
    (populate_entry_state zero_bytes_world initial_state).packetSizeInBytes = 0 ∧
    (audio_main zero_bytes_world initial_state).1 = 0 ∧
    (audio_main zero_bytes_world initial_state).2.trace =
      initial_state.trace ++
        [Event.ma_decoder_init_file, Event.ma_get_bytes_per_frame,
         Event.ma_decoder_get_length_in_pcm_frames, Event.malloc 0,
         Event.printf
          (Msg.total_frames (populate_entry_state zero_bytes_world initial_state).total_frames),
         Event.printf
          (Msg.total_packets
            (populate_entry_state zero_bytes_world initial_state).total_packets)] ++
        read_events (populate_entry_state zero_bytes_world initial_state) 0
          (populate_entry_state zero_bytes_world initial_state).total_packets ++
        [Event.printf Msg.populate_completed, Event.free zero_bytes_world.malloc_ptr,
         Event.ma_decoder_uninit] ∧
    count_read (audio_main zero_bytes_world initial_state).2.trace
      = count_read initial_state.trace
        + (populate_entry_state zero_bytes_world initial_state).total_packets :=
  zero_packet_size_not_rejected zero_bytes_world initial_state (by decide) (by decide)
    (by decide) (by decide) (by decide) (fun _ _ => rfl)

/-- C13: with `total_frames = 2500` and packets of 1024 frames,
`audio_calculate_total_packets` yields `total_packets = 3`, and a run of
`audio_populate_buffer` whose three reads succeed returns 0 having requested
`[1024, 1024, 452]` frames in that order; so does the full run of `audio_main` on a
2500-frame source. -/
theorem scenario_2500_frames (w : World)
    (hall : ∀ j, j < 3 → (w.read_pcm_frames j).1 = MA_SUCCESS) :
    audio_calculate_total_packets { initial_state with total_frames := 2500 }
      = frames_2500_state ∧
    frames_2500_state.total_packets = 3 ∧
    (audio_populate_buffer w frames_2500_state).1 = 0 ∧
    requested_frames (audio_populate_buffer w frames_2500_state).2.trace = [1024, 1024, 452] ∧
    requested_frames (audio_main frames_2500_world initial_state).2.trace
      = [1024, 1024, 452] := by
  obtain ⟨h1, h2, _⟩ := populate_loop_ok w 3 0 frames_2500_state (by decide)
    (by intro j hj; simpa [frames_2500_state, initial_state] using hall j hj)
  have h3 := populate_loop_ok frames_2500_world 3 0 frames_2500_entry_state (by decide)
    (by decide)
  refine ⟨by decide, by decide, h1, ?_, ?_⟩
  · simp only [audio_populate_buffer]
    rw [h2, requested_frames_append, requested_frames_append, requested_frames_read_events]
    decide
  · rw [audio_main_open_ok frames_2500_world initial_state (by decide)]
    simp only [audio_populate_buffer, audio_cleanup, emit]
    show requested_frames
      ((populate_loop frames_2500_world 0 frames_2500_entry_state).2.trace ++ _ ++ _) = _
    rw [h3.2.1, requested_frames_append, requested_frames_append, requested_frames_append,
      requested_frames_append, requested_frames_read_events]
    decide

/-- Instance: the 2500-frame source for which every call succeeds. -/
theorem scenario_2500_frames_witness :
    audio_calculate_total_packets { initial_state with total_frames := 2500 }
      = frames_2500_state ∧
    frames_2500_state.total_packets = 3 ∧
    (audio_populate_buffer frames_2500_world frames_2500_state).1 = 0 ∧
    requested_frames (audio_populate_buffer frames_2500_world frames_2500_state).2.trace
      = [1024, 1024, 452] ∧
    requested_frames (audio_main frames_2500_world initial_state).2.trace
      = [1024, 1024, 452] :=
  scenario_2500_frames frames_2500_world (by decide)

/-- C14: when `malloc` returns `NULL`, `audio_init_buffer` uninitialises the decoder and
returns `-3`, but `audio_main` goes on: `audio_populate_buffer` issues a read on the
uninitialised decoder into the null buffer, and `ma_decoder_uninit` is applied twice more. -/
theorem stages_run_after_failed_allocation :
    (audio_main alloc_fail_world initial_state).2.trace =
      [Event.ma_decoder_init_file, Event.ma_get_bytes_per_frame,
       Event.ma_decoder_get_length_in_pcm_frames, Event.malloc 4096,
       Event.printf Msg.memory_allocation_failed, Event.ma_decoder_uninit,
       Event.printf (Msg.total_frames 2500), Event.printf (Msg.total_packets 3),
       Event.ma_decoder_read_pcm_frames NULL 1024,
       Event.printf Msg.failed_to_read_audio_data, Event.free NULL, Event.ma_decoder_uninit,
       Event.free NULL, Event.ma_decoder_uninit] ∧
    decoder_used_after_uninit (audio_main alloc_fail_world initial_state).2.trace = true ∧
    read_into_null (audio_main alloc_fail_world initial_state).2.trace = true := by
  have h : (audio_main alloc_fail_world initial_state).2.trace =
      [Event.ma_decoder_init_file, Event.ma_get_bytes_per_frame,
       Event.ma_decoder_get_length_in_pcm_frames, Event.malloc 4096,
       Event.printf Msg.memory_allocation_failed, Event.ma_decoder_uninit,
       Event.printf (Msg.total_frames 2500), Event.printf (Msg.total_packets 3),
       Event.ma_decoder_read_pcm_frames NULL 1024,
       Event.printf Msg.failed_to_read_audio_data, Event.free NULL, Event.ma_decoder_uninit,
       Event.free NULL, Event.ma_decoder_uninit] := by
    simp [audio_main, audio_init_file, audio_calculate_packet_size_bytes,
      audio_calculate_total_frames, audio_calculate_total_packets, audio_init_buffer,
      audio_populate_buffer, audio_cleanup, populate_loop_abort,
      populate_read, populate_frames, populate_fail, emit, alloc_fail_world, initial_state,
      MA_SUCCESS, NULL, U32, U64]
  rw [h]
  exact ⟨rfl, by decide, by decide⟩

/-- C15: when `malloc` returns `NULL` for an empty source, `audio_main` still reaches
`audio_cleanup`, which calls `free` on the null buffer pointer (and uninitialises the
decoder a second time). -/
theorem free_attempted_without_buffer :
    alloc_fail_empty_world.malloc_ptr = NULL ∧
    (audio_main alloc_fail_empty_world initial_state).2.trace =
      [Event.ma_decoder_init_file, Event.ma_get_bytes_per_frame,
       Event.ma_decoder_get_length_in_pcm_frames, Event.malloc 4096,
       Event.printf Msg.memory_allocation_failed, Event.ma_decoder_uninit,
       Event.printf (Msg.total_frames 0), Event.printf (Msg.total_packets 0),
       Event.printf Msg.populate_completed, Event.free NULL, Event.ma_decoder_uninit] ∧
    count_free (audio_main alloc_fail_empty_world initial_state).2.trace = 1 ∧
    free_of_null (audio_main alloc_fail_empty_world initial_state).2.trace = true ∧
    count_uninit (audio_main alloc_fail_empty_world initial_state).2.trace = 2 := by
  have h : (audio_main alloc_fail_empty_world initial_state).2.trace =
      [Event.ma_decoder_init_file, Event.ma_get_bytes_per_frame,
       Event.ma_decoder_get_length_in_pcm_frames, Event.malloc 4096,
       Event.printf Msg.memory_allocation_failed, Event.ma_decoder_uninit,
       Event.printf (Msg.total_frames 0), Event.printf (Msg.total_packets 0),
       Event.printf Msg.populate_completed, Event.free NULL, Event.ma_decoder_uninit] := by
    simp [audio_main, audio_init_file, audio_calculate_packet_size_bytes,
      audio_calculate_total_frames, audio_calculate_total_packets, audio_init_buffer,
      audio_populate_buffer, audio_cleanup, populate_loop_done,
      emit, alloc_fail_empty_world, initial_state, MA_SUCCESS, NULL, U32, U64]
  rw [h]
  exact ⟨rfl, rfl, by decide, by decide, by decide⟩

/-- C16: when `packetSizeInFrames * bytesPerFrame` fits in 32 bits and `packetSizeInBytes` is
the value computed by `audio_calculate_packet_size_bytes` (the size `audio_init_buffer` passes
to `malloc`), every read that `audio_populate_buffer` issues targets `audio_data_buffer` and
asks for `frameCount` frames with `frameCount * bytesPerFrame <= packetSizeInBytes`; on every
iteration but the last `framesToRead * bytesPerFrame = packetSizeInBytes`. -/
theorem reads_fit_packet_buffer (w : World) (s : AudioState)
    (hp : 0 < s.packetSizeInFrames) (htf : s.total_frames < U64)
    (htp : s.total_packets = (audio_calculate_total_packets s).total_packets)
    (hno : s.packetSizeInFrames * w.bytes_per_frame < U32)
    (hbytes : s.packetSizeInBytes = (audio_calculate_packet_size_bytes w s).packetSizeInBytes) :
    s.packetSizeInBytes = s.packetSizeInFrames * w.bytes_per_frame ∧
    Event.malloc s.packetSizeInBytes ∈ (audio_init_buffer w s).2.trace ∧
    (∀ b f, Event.ma_decoder_read_pcm_frames b f
        ∈ (audio_populate_buffer w s).2.trace.drop s.trace.length →
      b = s.audio_data_buffer ∧ f * w.bytes_per_frame ≤ s.packetSizeInBytes) ∧
    (∀ i, i + 1 < s.total_packets →
      (populate_frames i s).framesToRead * w.bytes_per_frame = s.packetSizeInBytes) := by
  have hb : w.bytes_per_frame ≤ s.packetSizeInFrames * w.bytes_per_frame :=
    Nat.le_mul_of_pos_left _ hp
  have hsz : s.packetSizeInBytes = s.packetSizeInFrames * w.bytes_per_frame := by
    rw [hbytes]
    simp only [audio_calculate_packet_size_bytes, emit]
    rw [Nat.mod_eq_of_lt (Nat.lt_of_le_of_lt hb hno), Nat.mod_eq_of_lt hno]
  refine ⟨hsz, ?_, ?_, ?_⟩
  · rw [audio_init_buffer_state]
    simp
  · intro b f hmem
    have hfit : ∀ e, e ∈ read_events s 0 s.total_packets ∨ (∃ k, e ∈ read_events s 0 (k + 1)) →
        e = Event.ma_decoder_read_pcm_frames b f →
        b = s.audio_data_buffer ∧ f * w.bytes_per_frame ≤ s.packetSizeInBytes := by
      intro e he heq
      have hex : ∃ i, e = Event.ma_decoder_read_pcm_frames s.audio_data_buffer
          (populate_frames i s).framesToRead := by
        rcases he with he | ⟨k, he⟩
        · obtain ⟨i, _, _, h⟩ := mem_read_events s 0 _ e he
          exact ⟨i, h⟩
        · obtain ⟨i, _, _, h⟩ := mem_read_events s 0 _ e he
          exact ⟨i, h⟩
      obtain ⟨i, hi⟩ := hex
      rw [heq] at hi
      injection hi with h1 h2
      refine ⟨h1, ?_⟩
      rw [h2, hsz]
      exact Nat.mul_le_mul_right _ (framesToRead_le s i)
    simp only [audio_populate_buffer] at hmem
    rcases populate_loop_cases w 0 s with ⟨_, _, ht, _⟩ | ⟨k, _, _, _, _, ht, _⟩
    · rw [ht, List.append_assoc, List.drop_left, List.mem_append] at hmem
      rcases hmem with hmem | hmem
      · exact hfit _ (Or.inl (by simpa using hmem)) rfl
      · simp at hmem
    · rw [ht, List.append_assoc, List.drop_left, List.mem_append] at hmem
      rcases hmem with hmem | hmem
      · exact hfit _ (Or.inr ⟨k, hmem⟩) rfl
      · simp at hmem
  · intro i hi
    obtain ⟨_, h2, _, h4, _⟩ := iteration_bounds s hp htf htp i (by omega)
    have h5 := h4 hi
    rw [framesToRead_eq s htf i h2, hsz, Nat.min_eq_right (by omega)]

/-- Instance: the loop entry state of the run on a 2500-frame source with 4 bytes per
frame, whose buffer has 4096 bytes. -/
theorem reads_fit_packet_buffer_witness :
    frames_2500_entry_state.packetSizeInBytes
      = frames_2500_entry_state.packetSizeInFrames * frames_2500_world.bytes_per_frame ∧
    Event.malloc frames_2500_entry_state.packetSizeInBytes
      ∈ (audio_init_buffer frames_2500_world frames_2500_entry_state).2.trace ∧
    (∀ b f, Event.ma_decoder_read_pcm_frames b f
        ∈ (audio_populate_buffer frames_2500_world frames_2500_entry_state).2.trace.drop
            frames_2500_entry_state.trace.length →
      b = frames_2500_entry_state.audio_data_buffer ∧
      f * frames_2500_world.bytes_per_frame ≤ frames_2500_entry_state.packetSizeInBytes) ∧
    (∀ i, i + 1 < frames_2500_entry_state.total_packets →
      (populate_frames i frames_2500_entry_state).framesToRead
          * frames_2500_world.bytes_per_frame
        = frames_2500_entry_state.packetSizeInBytes) :=
  reads_fit_packet_buffer frames_2500_world frames_2500_entry_state (by decide) (by decide)
    (by decide) (by decide) (by decide)

/-- C17: for every behaviour of the decoder and the allocator, `audio_init_buffer`,
`audio_populate_buffer` and `audio_cleanup` leave `packetSizeInFrames`, `packetSizeInBytes`,
`total_frames` and `total_packets` unchanged; no stage, nor `audio_main` or `main` as a whole,
changes `packetSizeInFrames`, which therefore still has its configured value 1024 (not zero)
at the end of a run from the static initial state. -/
theorem geometry_immutable (w : World) (s : AudioState) :
    same_geometry (audio_init_buffer w s).2 s ∧
    same_geometry (audio_populate_buffer w s).2 s ∧
    same_geometry (audio_cleanup s) s ∧
    (audio_init_file w s).2.packetSizeInFrames = s.packetSizeInFrames ∧
    (audio_calculate_packet_size_bytes w s).packetSizeInFrames = s.packetSizeInFrames ∧
    (audio_calculate_total_frames w s).2.packetSizeInFrames = s.packetSizeInFrames ∧
    (audio_calculate_total_packets s).packetSizeInFrames = s.packetSizeInFrames ∧
    (audio_main w s).2.packetSizeInFrames = s.packetSizeInFrames ∧
    (main w s).2.packetSizeInFrames = s.packetSizeInFrames ∧
    (audio_main w initial_state).2.packetSizeInFrames = 1024 ∧
    (audio_main w initial_state).2.packetSizeInFrames ≠ 0 := by
  have hpop : ∀ s2 : AudioState, same_geometry (audio_populate_buffer w s2).2 s2 := by
    intro s2
    obtain ⟨h1, h2, h3, h4, _⟩ := populate_loop_frame w _ 0 s2 rfl
    exact ⟨h1, h2, h3, h4⟩
  have hopen_fields : (audio_init_file w s).2.packetSizeInFrames = s.packetSizeInFrames := by
    unfold audio_init_file
    by_cases h : w.init_file_result = MA_SUCCESS <;> simp [emit, h]
  have hmain : ∀ s2 : AudioState,
      (audio_main w s2).2.packetSizeInFrames = s2.packetSizeInFrames := by
    intro s2
    by_cases h : w.init_file_result = MA_SUCCESS
    · rw [audio_main_open_ok w s2 h]
      simp only [audio_cleanup, emit]
      rw [(hpop _).1, populate_entry_state_eq w s2 h]
    · simp [audio_main, audio_init_file, emit, h]
  refine ⟨?_, hpop s, ?_, hopen_fields, ?_, ?_, ?_, hmain s, ?_, ?_, ?_⟩
  · rw [audio_init_buffer_state]
    exact ⟨rfl, rfl, rfl, rfl⟩
  · exact ⟨rfl, rfl, rfl, rfl⟩
  · simp only [audio_calculate_packet_size_bytes, emit]
  · rw [audio_calculate_total_frames_state]
  · rw [audio_calculate_total_packets]
  · unfold main
    by_cases h : (audio_main w (emit (Event.printf Msg.begin_audio_program) s)).1 = 0
    · simp only [h, ne_eq, not_true_eq_false, if_false]
      simp only [emit]
      exact hmain _
    · simp only [h, ne_eq, not_false_eq_true, if_true]
      simp only [emit]
      exact hmain _
  · rw [hmain]
    rfl
  · rw [hmain]
    decide

/-- C18: when `total_frames + packetSizeInFrames - 1 < 2^64` and `total_packets` is the
computed packet count, every iteration `packetIndex < total_packets` has
`packetIndex * packetSizeInFrames < total_frames`; the 64-bit product and difference do not
wrap, `framesRemaining` is the plain difference, at least 1, and at least
`packetSizeInFrames` on every iteration but the last. -/
theorem framesRemaining_never_wraps (s : AudioState) (hp : 0 < s.packetSizeInFrames)
    (hnw : s.total_frames + s.packetSizeInFrames - 1 < U64)
    (htp : s.total_packets = (audio_calculate_total_packets s).total_packets)
    (packetIndex : Nat) (hi : packetIndex < s.total_packets) :
    packetIndex * s.packetSizeInFrames < s.total_frames ∧
    packetIndex * s.packetSizeInFrames < U64 ∧
    (populate_frames packetIndex s).framesRemaining
      = s.total_frames - packetIndex * s.packetSizeInFrames ∧
    1 ≤ (populate_frames packetIndex s).framesRemaining ∧
    (packetIndex + 1 < s.total_packets →
      s.packetSizeInFrames ≤ (populate_frames packetIndex s).framesRemaining) := by
  have htf : s.total_frames < U64 := by omega
  obtain ⟨_, h2, _, h4, _⟩ := iteration_bounds s hp htf htp packetIndex hi
  rw [framesRemaining_eq s htf packetIndex h2]
  refine ⟨h2, by omega, rfl, by omega, fun h => ?_⟩
  have := h4 h
  omega

/-- Instance: 2500 frames in packets of 1024, at the last index 2 of 3. -/
theorem framesRemaining_never_wraps_witness :
    2 * frames_2500_state.packetSizeInFrames < frames_2500_state.total_frames ∧
    2 * frames_2500_state.packetSizeInFrames < U64 ∧
    (populate_frames 2 frames_2500_state).framesRemaining
      = frames_2500_state.total_frames - 2 * frames_2500_state.packetSizeInFrames ∧
    1 ≤ (populate_frames 2 frames_2500_state).framesRemaining ∧
    (2 + 1 < frames_2500_state.total_packets →
      frames_2500_state.packetSizeInFrames
        ≤ (populate_frames 2 frames_2500_state).framesRemaining) :=
  framesRemaining_never_wraps frames_2500_state (by decide) (by decide) (by decide) 2
    (by decide)

/-- C19: `audio_populate_buffer` is a total function of the state and of the behaviour of
the decoder; it returns 0 or `-4` after at most `total_packets` reads; it returns 0 exactly
when the `total_packets` reads all return `MA_SUCCESS` (and then it has issued exactly
`total_packets` reads), and `-4` exactly when one of them returns another status, in which
case it stops right after the first such read. -/
theorem populate_terminates_and_reports (w : World) (s : AudioState) :
    ((audio_populate_buffer w s).1 = 0 ∨ (audio_populate_buffer w s).1 = -4) ∧
    count_read (audio_populate_buffer w s).2.trace ≤ count_read s.trace + s.total_packets ∧
    (audio_populate_buffer w s).2.reads_served ≤ s.reads_served + s.total_packets ∧
    ((audio_populate_buffer w s).1 = 0 ↔
      ∀ j, j < s.total_packets → (w.read_pcm_frames (s.reads_served + j)).1 = MA_SUCCESS) ∧
    ((audio_populate_buffer w s).1 = 0 →
      count_read (audio_populate_buffer w s).2.trace = count_read s.trace + s.total_packets ∧
      (audio_populate_buffer w s).2.reads_served = s.reads_served + s.total_packets) ∧
    ((audio_populate_buffer w s).1 = -4 ↔
      ∃ j, j < s.total_packets ∧ (w.read_pcm_frames (s.reads_served + j)).1 ≠ MA_SUCCESS) ∧
    ((audio_populate_buffer w s).1 = -4 →
      ∃ k, k < s.total_packets ∧
        (∀ j, j < k → (w.read_pcm_frames (s.reads_served + j)).1 = MA_SUCCESS) ∧
        (w.read_pcm_frames (s.reads_served + k)).1 ≠ MA_SUCCESS ∧
        count_read (audio_populate_buffer w s).2.trace = count_read s.trace + (k + 1) ∧
        (audio_populate_buffer w s).2.reads_served = s.reads_served + (k + 1)) := by
  simp only [audio_populate_buffer]
  rcases populate_loop_cases w 0 s with ⟨hall, hr, ht, hs⟩ | ⟨k, hk, hok, hbad, hr, ht, hs⟩
  · have hc : count_read (populate_loop w 0 s).2.trace = count_read s.trace + s.total_packets := by
      rw [ht, count_read_append, count_read_append, count_read_read_events]
      simp [count_read]
    refine ⟨Or.inl hr, by omega, by omega, ⟨fun _ => hall, fun _ => hr⟩,
      fun _ => ⟨hc, by omega⟩, ⟨fun h => ?_, fun ⟨j, hj, hb⟩ => ?_⟩, fun h => ?_⟩
    · rw [hr] at h
      exact absurd h (by decide)
    · exact absurd (hall j hj) hb
    · rw [hr] at h
      exact absurd h (by decide)
  · have hc : count_read (populate_loop w 0 s).2.trace = count_read s.trace + (k + 1) := by
      rw [ht, count_read_append, count_read_append, count_read_read_events]
      simp [count_read]
    refine ⟨Or.inr hr, by omega, by omega, ⟨fun h => ?_, fun h => ?_⟩, fun h => ?_,
      ⟨fun _ => ⟨k, by omega, hbad⟩, fun _ => hr⟩,
      fun _ => ⟨k, by omega, hok, hbad, hc, by omega⟩⟩
    · rw [hr] at h
      exact absurd h (by decide)
    · exact absurd (h k (by omega)) hbad
    · rw [hr] at h
      exact absurd h (by decide)

end MiniAudio
